import Mathlib

/-!
Verification of the soxyCheckerGui proxy validation engine.

The definitions below are a shallow embedding of the Go sources under
src/backend/checker (manager.go, stats.go, result.go, auto_detect.go).
Network I/O is abstracted by oracle parameters; machine integers are
modelled as Int (no overflow is relevant at the scales involved), and
float64 rate fields are modelled as rationals.  Wall-clock dependent
fields (ElapsedTime, ChecksPerSecond, EstimatedTimeRemaining, timestamps)
are outside every property considered here and are omitted.
-/

/-- ProxyType from manager.go lines 18-28: the closed enumeration of
proxy kinds. -/
inductive ProxyType where
  | auto
  | http
  | https
  | socks4
  | socks5
  | unknown
deriving DecidableEq, Repr

/-- The string name of a proxy type, mirroring the Go string constants. -/
def ProxyType.str : ProxyType → String
  | .auto => "auto"
  | .http => "http"
  | .https => "https"
  | .socks4 => "socks4"
  | .socks5 => "socks5"
  | .unknown => "unknown"

/- ProxyStatus constants from result.go lines 18-33.  In Go these are
strings; the Manager worker loop additionally uses the raw strings
"LIVE" and "DEAD", so status is modelled as a plain String. -/

def StatusPending : String := "pending"

def StatusChecking : String := "checking"

def StatusLive : String := "live"

def StatusDead : String := "dead"

def StatusError : String := "error"

/-- ProxyResult from result.go lines 36-69, restricted to the fields the
checker logic reads.  The Go Type field is a string that may be empty;
it is modelled as an Option, none standing for the empty string. -/
structure ProxyResult where
  Proxy : String
  type : Option ProxyType
  Status : String
  Latency : Int
  OutgoingIP : String
  Error : String
deriving DecidableEq, Repr

/-- Stats from stats.go lines 17-59, restricted to the non-wall-clock
fields.  TypeCounts models the Go map as a total function with default
value 0; SuccessRate (float64 in Go) is modelled as a rational. -/
structure Stats where
  Total : Int
  Live : Int
  Dead : Int
  Errors : Int
  Pending : Int
  Checking : Int
  TypeCounts : ProxyType → Int
  SuccessRate : ℚ
  AverageSpeed : Int
  ThreadCount : Int

/-- The zero value of Stats with a fresh empty TypeCounts map, as
produced by a Go composite literal. -/
def Stats.empty : Stats :=
  { Total := 0, Live := 0, Dead := 0, Errors := 0, Pending := 0, Checking := 0,
    TypeCounts := fun _ => 0, SuccessRate := 0, AverageSpeed := 0, ThreadCount := 0 }

/-- StatsTracker from stats.go lines 62-68 (the mutex and wall-clock
fields are omitted). -/
structure StatsTracker where
  stats : Stats
  totalTime : Int
  totalCount : Int

/-- Reset from stats.go lines 82-96: overwrite the statistics for a new
run of the given size. -/
def StatsTracker.Reset (_st : StatsTracker) (totalProxies : Int) : StatsTracker :=
  { stats := { Stats.empty with Total := totalProxies, Pending := totalProxies },
    totalTime := 0, totalCount := 0 }

/-- The type-count update at stats.go lines 104-106: increment the count
of the result type when it is non-empty. -/
def updTC (t : Option ProxyType) (tc : ProxyType → Int) : ProxyType → Int :=
  match t with
  | some ty => fun u => if u = ty then tc u + 1 else tc u
  | none => tc

/-- UpdateWithResult from stats.go lines 99-154 (the wall-clock parts at
lines 143-153 are omitted): fold one result into the aggregate. -/
def StatsTracker.UpdateWithResult (st : StatsTracker) (result : ProxyResult) : StatsTracker :=
  let s0 := { st.stats with TypeCounts := updTC result.type st.stats.TypeCounts }
  let st1 : StatsTracker :=
    if result.Status == StatusLive then
      if 0 < result.Latency then
        let tt := st.totalTime + result.Latency
        let tc := st.totalCount + 1
        let s1 := { s0 with Live := s0.Live + 1, Pending := s0.Pending - 1 }
        { stats := { s1 with AverageSpeed := tt.tdiv tc },
          totalTime := tt, totalCount := tc }
      else
        { st with stats := { s0 with Live := s0.Live + 1, Pending := s0.Pending - 1 } }
    else if result.Status == StatusDead then
      { st with stats := { s0 with Dead := s0.Dead + 1, Pending := s0.Pending - 1 } }
    else if result.Status == StatusError then
      { st with stats := { s0 with Errors := s0.Errors + 1, Pending := s0.Pending - 1 } }
    else if result.Status == StatusChecking then
      { st with stats := { s0 with Checking := s0.Checking + 1, Pending := s0.Pending - 1 } }
    else
      { st with stats := s0 }
  let completed := st1.stats.Live + st1.stats.Dead + st1.stats.Errors
  if 0 < completed then
    { st1 with stats := { st1.stats with
        SuccessRate := (st1.stats.Live : ℚ) / (completed : ℚ) * 100 } }
  else st1

/-- MarkCheckingAsDead from stats.go lines 158-170: move all checking
proxies to dead and recompute the success rate. -/
def StatsTracker.MarkCheckingAsDead (st : StatsTracker) : StatsTracker :=
  let s1 := { st.stats with Dead := st.stats.Dead + st.stats.Checking, Checking := 0 }
  let completed := s1.Live + s1.Dead + s1.Errors
  if 0 < completed then
    { st with stats := { s1 with SuccessRate := (s1.Live : ℚ) / (completed : ℚ) * 100 } }
  else
    { st with stats := s1 }

/-- The copy-and-recompute logic of Manager.GetStats, manager.go lines
452-475: only Total, Pending, Live, Dead, Errors, AverageSpeed and
TypeCounts are copied (all other fields keep their zero values), and
Pending is then recomputed as Total - Live - Dead - Errors. -/
def GetStatsCopy (s : Stats) : Stats :=
  let stats := { Stats.empty with
    Total := s.Total, Pending := s.Pending, Live := s.Live, Dead := s.Dead,
    Errors := s.Errors, AverageSpeed := s.AverageSpeed, TypeCounts := s.TypeCounts }
  { stats with Pending := stats.Total - stats.Live - stats.Dead - stats.Errors }

/-- Manager from manager.go lines 62-75.  Channels are modelled by
whether they are currently closed; the mutexes are implicit in the
sequential embedding. -/
structure Manager where
  running : Bool
  paused : Bool
  results : List ProxyResult
  working : List String
  stats : Stats
  workerCount : Int
  pausedWorkerCount : Int
  stopChanClosed : Bool
  pauseChanClosed : Bool
  resumeChanClosed : Bool

/-- GetWorkerCount, manager.go lines 89-93. -/
def Manager.GetWorkerCount (m : Manager) : Int := m.workerCount

/-- GetPausedWorkerCount, manager.go lines 96-98. -/
def Manager.GetPausedWorkerCount (m : Manager) : Int := m.pausedWorkerCount

/-- IncrementPausedWorkerCount, manager.go lines 101-103.  No other
function in the repository ever calls it. -/
def Manager.IncrementPausedWorkerCount (m : Manager) : Manager :=
  { m with pausedWorkerCount := m.pausedWorkerCount + 1 }

/-- IsRunning, manager.go lines 478-482. -/
def Manager.IsRunning (m : Manager) : Bool := m.running

/-- IsPaused, manager.go lines 356-360. -/
def Manager.IsPaused (m : Manager) : Bool := m.paused

/-- GetResults, manager.go lines 410-418 (the copy is identity under
value semantics). -/
def Manager.GetResults (m : Manager) : List ProxyResult := m.results

/-- GetStats, manager.go lines 452-475. -/
def Manager.GetStats (m : Manager) : Stats := GetStatsCopy m.stats

/-- Pause, manager.go lines 318-330: refuse unless running and not yet
paused; otherwise set the paused flag, reset the paused-worker counter
to zero and broadcast by closing the pause channel.  Returns the Go
boolean together with the successor state. -/
def Manager.Pause (m : Manager) : Bool × Manager :=
  if !m.running || m.paused then (false, m)
  else (true, { m with paused := true, pausedWorkerCount := 0, pauseChanClosed := true })

/-- Resume, manager.go lines 340-353. -/
def Manager.Resume (m : Manager) : Bool × Manager :=
  if !m.running || !m.paused then (false, m)
  else (true, { m with paused := false, pauseChanClosed := false, resumeChanClosed := false })

/-- Stop, manager.go lines 294-315: a no-op when idle; otherwise toggle
the stop channel and set running to false.  The force parameter is
unused in the source. -/
def Manager.Stop (m : Manager) (force : Bool) : Manager :=
  if !m.running then m
  else
    let _ := force
    let m1 := if m.stopChanClosed then { m with stopChanClosed := false }
              else { m with stopChanClosed := true }
    { m1 with running := false }

/-- ClearResults, manager.go lines 421-438: rejected while running and
not paused; otherwise wipe results, working list and statistics. -/
def Manager.ClearResults (m : Manager) : Manager :=
  if m.running && !m.paused then m
  else { m with results := [], working := [], stats := Stats.empty }

/-- The state effect of the worker pause branch, manager.go lines
180-187: the worker logs that it paused and blocks on the resume/stop
channels.  It performs no Manager state update; in particular it never
calls IncrementPausedWorkerCount. -/
def workerPauseBranch (m : Manager) (logs : List String) (id : Nat) : Manager × List String :=
  (m, logs ++ ["Worker " ++ toString id ++ " paused"])

/-- All listed workers observe the pause signal in sequence. -/
def observeAll (m : Manager) (logs : List String) (ids : List Nat) : Manager × List String :=
  ids.foldl (fun s id => workerPauseBranch s.1 s.2 id) (m, logs)

/-- The completion watcher, manager.go lines 282-290: once every worker
has exited (the wait group reaches zero) it clears the running and
paused flags. -/
structure SystemState where
  mgr : Manager
  activeWorkers : Nat

/-- One firing of the completion watcher: it only acts after all workers
have exited. -/
def completionWatcherStep (s : SystemState) : SystemState :=
  if s.activeWorkers = 0 then
    { s with mgr := { s.mgr with running := false, paused := false } }
  else s

/-- Oracles standing for the network-dependent remainder of each probe
function, everything past the deterministic validation steps: HTTP(S)
request round trips and SOCKS tunnel establishment.  A value of this
structure fixes one possible behaviour of the outside network. -/
structure NetBehavior where
  http : String → String → String → ProxyType → Except String String
  https : String → String → String → ProxyType → Except String String
  socks4 : String → String → Except String String
  socks5 : String → String → Except String String

/-- CheckHTTP, result.go lines 251-327: validate that the proxy address
contains a port separator, then perform the proxied GET (network
oracle). -/
def CheckHTTP (net : NetBehavior) (proxyAddr endpoint : String)
    (upstreamProxy : String) (upstreamType : ProxyType) : Except String String :=
  if !(proxyAddr.data.contains ':') then .error "invalid proxy format"
  else net.http proxyAddr endpoint upstreamProxy upstreamType

/-- CheckHTTPS, result.go lines 330-406: same shape as CheckHTTP. -/
def CheckHTTPS (net : NetBehavior) (proxyAddr endpoint : String)
    (upstreamProxy : String) (upstreamType : ProxyType) : Except String String :=
  if !(proxyAddr.data.contains ':') then .error "invalid proxy format"
  else net.https proxyAddr endpoint upstreamProxy upstreamType

/-- CheckSOCKS4, result.go lines 409-502: validate the address format,
then reject any non-empty upstream proxy before touching the network;
only then (oracle) create the dialer and connect. -/
def CheckSOCKS4 (net : NetBehavior) (proxyAddr endpoint : String)
    (upstreamProxy : String) (_upstreamType : ProxyType) : Except String String :=
  if !(proxyAddr.data.contains ':') then .error "invalid proxy format"
  else if upstreamProxy != "" then .error "upstream proxy not supported for SOCKS4 checks"
  else net.socks4 proxyAddr endpoint

/-- CheckSOCKS5, result.go lines 505-594: same shape as CheckSOCKS4. -/
def CheckSOCKS5 (net : NetBehavior) (proxyAddr endpoint : String)
    (upstreamProxy : String) (_upstreamType : ProxyType) : Except String String :=
  if !(proxyAddr.data.contains ':') then .error "invalid proxy format"
  else if upstreamProxy != "" then .error "upstream proxy not supported for SOCKS5 checks"
  else net.socks5 proxyAddr endpoint

/-- The fixed protocol order of auto_detect.go lines 26-34. -/
def detectionOrder : List ProxyType := [.socks5, .socks4, .https, .http]

/-- DetectProxyType, auto_detect.go lines 24-43: try the quick check of
each protocol in the fixed order and return the first that succeeds.
The quick checks are the network oracle. -/
def DetectProxyType (quick : ProxyType → Bool) : Except String ProxyType :=
  match detectionOrder.find? quick with
  | some t => .ok t
  | none => .error "could not detect proxy type"

/-- The effective-type resolution of the worker loop, manager.go lines
192-205: a requested kind of auto is auto-detected, falling back to http
when detection fails; any other requested kind is used as is. -/
def resolveEffectiveType (reqType : ProxyType) (quick : ProxyType → Bool) : ProxyType :=
  if reqType = .auto then
    match DetectProxyType quick with
    | .ok t => t
    | .error _ => .http
  else reqType

/-- ProxyCheckRequest, manager.go lines 31-38. -/
structure ProxyCheckRequest where
  proxyList : List String
  proxyType : ProxyType
  endpoint : String
  threads : Int
  upstreamProxy : String
  upstreamType : ProxyType

/-- The per-type dispatch of the worker loop, manager.go lines 218-229. -/
def dispatchCheck (net : NetBehavior) (proxyType : ProxyType) (proxy endpoint : String)
    (upstreamProxy : String) (upstreamType : ProxyType) : Except String String :=
  match proxyType with
  | .http => CheckHTTP net proxy endpoint upstreamProxy upstreamType
  | .https => CheckHTTPS net proxy endpoint upstreamProxy upstreamType
  | .socks4 => CheckSOCKS4 net proxy endpoint upstreamProxy upstreamType
  | .socks5 => CheckSOCKS5 net proxy endpoint upstreamProxy upstreamType
  | t => .error ("unsupported proxy type: " ++ t.str)

/-- The body of one worker iteration for one endpoint, manager.go lines
189-247: resolve the effective type, run the matching probe, measure the
latency (oracle lat, wall clock) and build the terminal result. -/
def checkOne (net : NetBehavior) (quick : String → ProxyType → Bool)
    (req : ProxyCheckRequest) (lat : String → Int) (proxy : String) : ProxyResult :=
  let proxyType := resolveEffectiveType req.proxyType (quick proxy)
  match dispatchCheck net proxyType proxy req.endpoint req.upstreamProxy req.upstreamType with
  | .error e =>
    { Proxy := proxy, type := some proxyType, Status := "DEAD", Latency := lat proxy,
      OutgoingIP := "", Error := e }
  | .ok ip =>
    { Proxy := proxy, type := some proxyType, Status := "LIVE", Latency := lat proxy,
      OutgoingIP := ip, Error := "" }

/-- The shared mutable state a run accumulates, manager.go lines 136-143
and the worker-local latency accumulators at lines 166-169. -/
structure RunState where
  results : List ProxyResult
  working : List String
  stats : Stats
  totalLatency : Int
  liveCount : Int

/-- The state reset performed by Start, manager.go lines 133-148. -/
def startRunState (total threads : Int) : RunState :=
  { results := [], working := [],
    stats := { Stats.empty with Total := total, Pending := total, ThreadCount := threads },
    totalLatency := 0, liveCount := 0 }

/-- The result-recording section of the worker loop, manager.go lines
242-272: update the latency accumulators for a live result, append the
result, bump the matching status counter and the type count, and
recompute the average speed. -/
def recordResult (rs : RunState) (result : ProxyResult) : RunState :=
  let totalLatency :=
    if result.Status == "LIVE" then rs.totalLatency + result.Latency else rs.totalLatency
  let liveCount := if result.Status == "LIVE" then rs.liveCount + 1 else rs.liveCount
  let results := rs.results ++ [result]
  let working :=
    if result.Status == "LIVE" then rs.working ++ [result.Proxy] else rs.working
  let stats1 :=
    if result.Status == "LIVE" then { rs.stats with Live := rs.stats.Live + 1 }
    else if result.Status == "DEAD" then { rs.stats with Dead := rs.stats.Dead + 1 }
    else { rs.stats with Errors := rs.stats.Errors + 1 }
  let stats2 := { stats1 with TypeCounts := updTC result.type stats1.TypeCounts }
  let stats3 :=
    if 0 < liveCount then { stats2 with AverageSpeed := totalLatency.tdiv liveCount }
    else stats2
  { results := results, working := working, stats := stats3,
    totalLatency := totalLatency, liveCount := liveCount }

/-- The worker loop of Start, manager.go lines 176-277, for one worker
that owns the listed jobs.  At each job boundary the worker observes a
signal: a stop signal makes it return, a pause signal blocks it until a
resume (then the loop continues with the next job) or a stop (return);
otherwise the default branch processes the job.  The function returns
the results this worker appends, in order. -/
inductive BoundarySignal where
  | stopSig
  | pauseResume
  | pauseStop
  | noSignal
deriving DecidableEq, Repr

def workerLoop (net : NetBehavior) (quick : String → ProxyType → Bool)
    (req : ProxyCheckRequest) (lat : String → Int) (sig : Nat → BoundarySignal) :
    List String → Nat → List ProxyResult
  | [], _ => []
  | proxy :: rest, i =>
    match sig i with
    | .stopSig => []
    | .pauseStop => []
    | .pauseResume => workerLoop net quick req lat sig rest (i + 1)
    | .noSignal =>
      checkOne net quick req lat proxy :: workerLoop net quick req lat sig rest (i + 1)

/- Counting helpers used to recompute statistics from scratch over a
result collection. -/

def countLive (rs : List ProxyResult) : Nat :=
  (rs.filter fun r => r.Status == "LIVE").length

def countDead (rs : List ProxyResult) : Nat :=
  (rs.filter fun r => r.Status == "DEAD").length

def countOther (rs : List ProxyResult) : Nat :=
  (rs.filter fun r => !(r.Status == "LIVE") && !(r.Status == "DEAD")).length

def countType (t : ProxyType) (rs : List ProxyResult) : Nat :=
  (rs.filter fun r => r.type == some t).length

def liveLatSum (rs : List ProxyResult) : Int :=
  ((rs.filter fun r => r.Status == "LIVE").map ProxyResult.Latency).sum

/-- Modelled from the spec: the statistics of a run recomputed from
scratch by folding over the full result collection, following section 8
of the spec ("Statistics recomputed from scratch over the full result
set equal the incrementally maintained snapshot") together with the
field definitions of section 3: each status counter counts the matching
results, per-kind counts count the matching kinds, the average speed is
the mean latency of live results, pending is what remains of the total,
and the success rate is live over completed times 100. -/
def statsFromScratch (total : Int) (rs : List ProxyResult) : Stats :=
  let live : Int := countLive rs
  let dead : Int := countDead rs
  let errors : Int := countOther rs
  let completed := live + dead + errors
  { Stats.empty with
    Total := total, Live := live, Dead := dead, Errors := errors,
    Pending := total - live - dead - errors,
    TypeCounts := fun t => (countType t rs : Int),
    AverageSpeed :=
      if countLive rs = 0 then 0 else (liveLatSum rs).tdiv (countLive rs : Int),
    SuccessRate := if 0 < completed then (live : ℚ) / (completed : ℚ) * 100 else 0 }

/-- The invariant linking a run state to the list of results recorded so
far.  Every conjunct is a statement about the code state produced by
recordResult. -/
def RunInv (total threads : Int) (rs : List ProxyResult) (st : RunState) : Prop :=
  st.results = rs ∧
  st.stats.Total = total ∧
  st.stats.Pending = total ∧
  st.stats.ThreadCount = threads ∧
  st.stats.Checking = 0 ∧
  st.stats.SuccessRate = 0 ∧
  st.stats.Live = (countLive rs : Int) ∧
  st.stats.Dead = (countDead rs : Int) ∧
  st.stats.Errors = (countOther rs : Int) ∧
  (∀ t, st.stats.TypeCounts t = (countType t rs : Int)) ∧
  st.totalLatency = liveLatSum rs ∧
  st.liveCount = (countLive rs : Int) ∧
  st.stats.AverageSpeed =
    (if countLive rs = 0 then 0 else (liveLatSum rs).tdiv (countLive rs : Int))

theorem countLive_append (rs : List ProxyResult) (r : ProxyResult) :
    countLive (rs ++ [r]) = countLive rs + (if r.Status == "LIVE" then 1 else 0) := by
  simp only [countLive, List.filter_append, List.length_append, List.filter_cons,
    List.filter_nil]
  split <;> simp

theorem countDead_append (rs : List ProxyResult) (r : ProxyResult) :
    countDead (rs ++ [r]) = countDead rs + (if r.Status == "DEAD" then 1 else 0) := by
  simp only [countDead, List.filter_append, List.length_append, List.filter_cons,
    List.filter_nil]
  split <;> simp

theorem countOther_append (rs : List ProxyResult) (r : ProxyResult) :
    countOther (rs ++ [r]) =
      countOther rs + (if !(r.Status == "LIVE") && !(r.Status == "DEAD") then 1 else 0) := by
  simp only [countOther, List.filter_append, List.length_append, List.filter_cons,
    List.filter_nil]
  split <;> simp

theorem countType_append (rs : List ProxyResult) (r : ProxyResult) (t : ProxyType) :
    countType t (rs ++ [r]) = countType t rs + (if r.type == some t then 1 else 0) := by
  simp only [countType, List.filter_append, List.length_append, List.filter_cons,
    List.filter_nil]
  split <;> simp

theorem liveLatSum_append (rs : List ProxyResult) (r : ProxyResult) :
    liveLatSum (rs ++ [r]) = liveLatSum rs + (if r.Status == "LIVE" then r.Latency else 0) := by
  simp only [liveLatSum, List.filter_append, List.map_append, List.sum_append,
    List.filter_cons, List.filter_nil]
  split <;> simp


theorem updTC_eq (rs : List ProxyResult) (r : ProxyResult) (tc : ProxyType → Int)
    (htc : ∀ t, tc t = (countType t rs : Int)) :
    ∀ t, updTC r.type tc t = (countType t (rs ++ [r]) : Int) := by
  intro t
  rw [countType_append]
  cases hT : r.type with
  | none => simp [updTC, htc]
  | some ty =>
    by_cases hty : ty = t
    · subst hty
      simp [updTC, htc]
    · have h1 : (some ty == some t) = false := by
        simpa using hty
      rw [h1]
      simp [updTC, htc, if_neg (Ne.symm hty)]

theorem recordResult_runInv (total threads : Int) (rs : List ProxyResult) (st : RunState)
    (r : ProxyResult) (h : RunInv total threads rs st) :
    RunInv total threads (rs ++ [r]) (recordResult st r) := by
  obtain ⟨hres, htot, hpend, hthr, hchk, hsr, hlive, hdead, herr, htc, hlat, hcnt, havg⟩ := h
  cases hS : r.Status == "LIVE"
  · -- not a LIVE result: the latency accumulators are unchanged
    have hS2 : ¬ r.Status = "LIVE" := by simpa using hS
    have havg2 : (recordResult st r).stats.AverageSpeed =
        if countLive (rs ++ [r]) = 0 then 0
        else (liveLatSum (rs ++ [r])).tdiv (countLive (rs ++ [r]) : Int) := by
      rw [countLive_append, liveLatSum_append]
      simp only [hS, Bool.false_eq_true, if_false, Nat.add_zero, Int.add_zero]
      rcases Nat.eq_zero_or_pos (countLive rs) with h0 | h0
      · have hz : st.liveCount = 0 := by rw [hcnt, h0]; rfl
        simp [recordResult, hS, hS2, hz, havg, h0, apply_ite Stats.AverageSpeed]
      · have hp : (0 : Int) < st.liveCount := by
          rw [hcnt]; exact_mod_cast h0
        have hne : ¬ countLive rs = 0 := by omega
        simp [recordResult, hS, hS2, hp, hlat, hcnt, hne, h0,
          apply_ite Stats.AverageSpeed]
    cases hD : r.Status == "DEAD"
    all_goals
      first
      | have hD2 : ¬ r.Status = "DEAD" := by simpa using hD
      | have hD2 : r.Status = "DEAD" := by simpa using hD
    all_goals
      refine ⟨?_, ?_, ?_, ?_, ?_, ?_, ?_, ?_, ?_, ?_, ?_, ?_, havg2⟩ <;>
        (try simp [recordResult, hS, hS2, hD, hD2, countLive_append, countDead_append,
          countOther_append, liveLatSum_append, hres, htot, hpend, hthr, hchk, hsr,
          hlive, hdead, herr, hlat, hcnt, apply_ite Stats.Total, apply_ite Stats.Pending,
          apply_ite Stats.ThreadCount, apply_ite Stats.Checking,
          apply_ite Stats.SuccessRate, apply_ite Stats.Live, apply_ite Stats.Dead,
          apply_ite Stats.Errors, apply_ite Stats.TypeCounts]) <;>
        first
        | rfl
        | (intro t; exact updTC_eq rs r st.stats.TypeCounts htc t)
        | (push_cast; omega)
  · -- a LIVE result
    have hS2 : r.Status = "LIVE" := by simpa using hS
    have hp : (0 : Int) < st.liveCount + 1 := by
      rw [hcnt]
      positivity
    have havg2 : (recordResult st r).stats.AverageSpeed =
        if countLive (rs ++ [r]) = 0 then 0
        else (liveLatSum (rs ++ [r])).tdiv (countLive (rs ++ [r]) : Int) := by
      rw [countLive_append, liveLatSum_append]
      simp only [hS, if_true]
      have hne : ¬ countLive rs + 1 = 0 := by omega
      simp [recordResult, hS, hS2, hp, hlat, hcnt, hne, apply_ite Stats.AverageSpeed]
      try (push_cast; ring_nf)
    refine ⟨?_, ?_, ?_, ?_, ?_, ?_, ?_, ?_, ?_, ?_, ?_, ?_, havg2⟩ <;>
      (try simp [recordResult, hS, hS2, hp, countLive_append, countDead_append,
        countOther_append, liveLatSum_append, hres, htot, hpend, hthr, hchk, hsr,
        hlive, hdead, herr, hlat, hcnt, apply_ite Stats.Total, apply_ite Stats.Pending,
        apply_ite Stats.ThreadCount, apply_ite Stats.Checking,
        apply_ite Stats.SuccessRate, apply_ite Stats.Live, apply_ite Stats.Dead,
        apply_ite Stats.Errors, apply_ite Stats.TypeCounts]) <;>
      first
      | rfl
      | (intro t; exact updTC_eq rs r st.stats.TypeCounts htc t)
      | (push_cast; omega)

theorem foldl_recordResult_runInv (total threads : Int) (rs : List ProxyResult) :
    ∀ (rs0 : List ProxyResult) (st : RunState), RunInv total threads rs0 st →
      RunInv total threads (rs0 ++ rs) (rs.foldl recordResult st) := by
  induction rs with
  | nil =>
    intro rs0 st h
    simpa using h
  | cons r rest ih =>
    intro rs0 st h
    have h2 := ih (rs0 ++ [r]) (recordResult st r)
      (recordResult_runInv total threads rs0 st r h)
    simpa [List.append_assoc] using h2

theorem startRunState_runInv (total threads : Int) :
    RunInv total threads [] (startRunState total threads) := by
  refine ⟨rfl, rfl, rfl, rfl, rfl, rfl, ?_, ?_, ?_, ?_, rfl, rfl, ?_⟩ <;>
    simp [startRunState, countLive, countDead, countOther, countType, liveLatSum,
      Stats.empty]

theorem run_runInv (total threads : Int) (rs : List ProxyResult) :
    RunInv total threads rs (rs.foldl recordResult (startRunState total threads)) := by
  simpa using
    foldl_recordResult_runInv total threads rs [] _ (startRunState_runInv total threads)

/-- The counter equation of spec section 3. -/
def counterInv (s : Stats) : Prop :=
  s.Pending + s.Checking + s.Live + s.Dead + s.Errors = s.Total

/-- Claim C1: for every statistics snapshot observable during a run, the
counter equation Pending + Checking + Live + Dead + Errors = Total
holds: every Manager.GetStats copy satisfies it, and Reset,
UpdateWithResult (for any status) and MarkCheckingAsDead preserve it. -/
theorem C1_counter_equation :
    (∀ (st : StatsTracker) (n : Int), counterInv (StatsTracker.Reset st n).stats) ∧
    (∀ (st : StatsTracker) (r : ProxyResult),
      counterInv st.stats → counterInv (st.UpdateWithResult r).stats) ∧
    (∀ (st : StatsTracker), counterInv st.stats → counterInv st.MarkCheckingAsDead.stats) ∧
    (∀ m : Manager, counterInv m.GetStats) := by
  refine ⟨?_, ?_, ?_, ?_⟩
  · intro st n
    simp [StatsTracker.Reset, Stats.empty, counterInv]
  · intro st r h
    unfold counterInv at h ⊢
    simp only [StatsTracker.UpdateWithResult, updTC]
    repeat' split
    all_goals (try simp_all)
    all_goals omega
  · intro st h
    unfold counterInv at h ⊢
    simp only [StatsTracker.MarkCheckingAsDead]
    split
    all_goals (try simp_all)
    all_goals omega
  · intro m
    simp [counterInv, Manager.GetStats, GetStatsCopy, Stats.empty]
    ring

/-- Closed witness for C1 on a concrete run of three proxies: reset the
tracker, fold one live result, then mark all checking proxies dead. -/
theorem C1_counter_equation_witness :
    counterInv (((StatsTracker.Reset ⟨Stats.empty, 0, 0⟩ 3).UpdateWithResult
      { Proxy := "1.2.3.4:80", type := some .http, Status := "live", Latency := 42,
        OutgoingIP := "", Error := "" }).MarkCheckingAsDead.stats) :=
  C1_counter_equation.2.2.1 _
    (C1_counter_equation.2.1 _ _ (C1_counter_equation.1 ⟨Stats.empty, 0, 0⟩ 3))

/-- Claim C2 (amended): for every completed run, the statistics snapshot
maintained incrementally by the worker loop agrees, on the fields the
worker loop actually maintains (Total, Live, Dead, Errors, Pending,
per-type counts and AverageSpeed), with the statistics recomputed from
scratch by folding over the full result collection.  SuccessRate is
excluded: the worker loop never maintains it and the snapshot always
reports 0 for it. -/
theorem C2_incremental_matches_scratch (total threads : Int) (rs : List ProxyResult) :
    (GetStatsCopy (rs.foldl recordResult (startRunState total threads)).stats).Total =
      (statsFromScratch total rs).Total ∧
    (GetStatsCopy (rs.foldl recordResult (startRunState total threads)).stats).Live =
      (statsFromScratch total rs).Live ∧
    (GetStatsCopy (rs.foldl recordResult (startRunState total threads)).stats).Dead =
      (statsFromScratch total rs).Dead ∧
    (GetStatsCopy (rs.foldl recordResult (startRunState total threads)).stats).Errors =
      (statsFromScratch total rs).Errors ∧
    (GetStatsCopy (rs.foldl recordResult (startRunState total threads)).stats).Pending =
      (statsFromScratch total rs).Pending ∧
    (GetStatsCopy (rs.foldl recordResult (startRunState total threads)).stats).AverageSpeed =
      (statsFromScratch total rs).AverageSpeed ∧
    (∀ t, (GetStatsCopy (rs.foldl recordResult (startRunState total threads)).stats).TypeCounts t =
      (statsFromScratch total rs).TypeCounts t) := by
  obtain ⟨hres, htot, hpend, hthr, hchk, hsr, hlive, hdead, herr, htc, hlat, hcnt, havg⟩ :=
    run_runInv total threads rs
  refine ⟨?_, ?_, ?_, ?_, ?_, ?_, ?_⟩ <;>
    simp [GetStatsCopy, statsFromScratch, Stats.empty, htot, hlive, hdead, herr, havg, htc]

/-- A concrete live result used by the C2 counterexample. -/
def liveResultEx : ProxyResult :=
  { Proxy := "1.2.3.4:80", type := some .http, Status := "LIVE", Latency := 50,
    OutgoingIP := "5.6.7.8", Error := "" }

/-- Claim C2 counterexample: on a completed run with one live result the
incrementally maintained snapshot reports SuccessRate 0 (the worker loop
never writes it and Manager.GetStats does not copy it), while the
statistics recomputed from scratch give a success rate of 100, so the
claim fails for the SuccessRate field. -/
theorem C2_successRate_counterexample :
    (GetStatsCopy (([liveResultEx].foldl recordResult (startRunState 1 1)).stats)).SuccessRate ≠
      (statsFromScratch 1 [liveResultEx]).SuccessRate := by
  simp [GetStatsCopy, statsFromScratch, Stats.empty, countLive, countDead, countOther,
    liveResultEx, List.filter]

/-- Claim C5: DetectProxyType tries the four protocol checks in the
fixed order SOCKS5, SOCKS4, HTTPS, HTTP and returns the kind of the
first that succeeds; it returns an error exactly when all four fail; and
a worker running with requested kind auto falls back to http when
detection fails, and otherwise uses the detected kind. -/
theorem C5_detection_order_and_fallback :
    (∀ quick : ProxyType → Bool, quick .socks5 = true →
      DetectProxyType quick = .ok .socks5) ∧
    (∀ quick : ProxyType → Bool, quick .socks5 = false → quick .socks4 = true →
      DetectProxyType quick = .ok .socks4) ∧
    (∀ quick : ProxyType → Bool, quick .socks5 = false → quick .socks4 = false →
      quick .https = true → DetectProxyType quick = .ok .https) ∧
    (∀ quick : ProxyType → Bool, quick .socks5 = false → quick .socks4 = false →
      quick .https = false → quick .http = true → DetectProxyType quick = .ok .http) ∧
    (∀ quick : ProxyType → Bool,
      DetectProxyType quick = .error "could not detect proxy type" ↔
        (quick .socks5 = false ∧ quick .socks4 = false ∧ quick .https = false ∧
         quick .http = false)) ∧
    (∀ (quick : ProxyType → Bool) (e : String), DetectProxyType quick = .error e →
      resolveEffectiveType .auto quick = .http) ∧
    (∀ (quick : ProxyType → Bool) (t : ProxyType), DetectProxyType quick = .ok t →
      resolveEffectiveType .auto quick = t) := by
  refine ⟨?_, ?_, ?_, ?_, ?_, ?_, ?_⟩
  · intro quick h5
    simp [DetectProxyType, detectionOrder, List.find?, h5]
  · intro quick h5 h4
    simp [DetectProxyType, detectionOrder, List.find?, h5, h4]
  · intro quick h5 h4 h3
    simp [DetectProxyType, detectionOrder, List.find?, h5, h4, h3]
  · intro quick h5 h4 h3 h2
    simp [DetectProxyType, detectionOrder, List.find?, h5, h4, h3, h2]
  · intro quick
    rcases h5 : quick .socks5 <;> rcases h4 : quick .socks4 <;>
      rcases h3 : quick .https <;> rcases h2 : quick .http <;>
      simp [DetectProxyType, detectionOrder, List.find?, h5, h4, h3, h2]
  · intro quick e h
    simp [resolveEffectiveType, h]
  · intro quick t h
    simp [resolveEffectiveType, h]

/-- A quick-check oracle on which only the HTTPS probe succeeds. -/
def quickOnlyHttps : ProxyType → Bool := fun t => t == .https

/-- Closed witness for C5: with only the HTTPS quick check succeeding
the detector reports https, and with every quick check failing the
worker falls back to http. -/
theorem C5_witness :
    DetectProxyType quickOnlyHttps = .ok .https ∧
    resolveEffectiveType .auto (fun _ => false) = .http :=
  ⟨C5_detection_order_and_fallback.2.2.1 quickOnlyHttps (by decide) (by decide) (by decide),
   C5_detection_order_and_fallback.2.2.2.2.2.1 (fun _ => false)
     "could not detect proxy type" (by rfl)⟩

/-- A network oracle in which every request fails with a connection
error; used by closed witnesses and counterexamples. -/
def netRefuse : NetBehavior :=
  { http := fun _ _ _ _ => .error "proxy connection failed: connection refused",
    https := fun _ _ _ _ => .error "proxy connection failed: connection refused",
    socks4 := fun _ _ => .error "SOCKS4 connection failed: connection refused",
    socks5 := fun _ _ => .error "SOCKS5 connection failed: connection refused" }

/-- Claim C7 counterexample: a SOCKS4 probe invoked with a non-empty
upstream proxy address but a malformed candidate address fails with the
invalid-format error, not with the unsupported-chaining error, because
the format validation runs first (result.go lines 411-413 before lines
419-422); so the claim as stated fails at this input. -/
theorem C7_counterexample :
    CheckSOCKS4 netRefuse "not-an-address" "http://api.ipify.org" "1.2.3.4:1080" .http =
      .error "invalid proxy format" ∧
    ("invalid proxy format" : String) ≠ "upstream proxy not supported for SOCKS4 checks" := by
  constructor
  · simp [CheckSOCKS4]
  · decide

/-- Claim C7 (amended): for every SOCKS4 or SOCKS5 probe invoked with a
non-empty upstream proxy address whose candidate address passes the
format validation (contains a port separator), the probe fails with the
descriptive unsupported-chaining error, and it does so before any
connection to the candidate proxy is attempted: the outcome is the same
for every network behaviour. -/
theorem C7_socks_upstream_rejected (net : NetBehavior) (proxyAddr endpoint up : String)
    (ut : ProxyType) (hfmt : proxyAddr.data.contains ':' = true) (hup : up ≠ "") :
    CheckSOCKS4 net proxyAddr endpoint up ut =
      .error "upstream proxy not supported for SOCKS4 checks" ∧
    CheckSOCKS5 net proxyAddr endpoint up ut =
      .error "upstream proxy not supported for SOCKS5 checks" := by
  have h2 : (up != "") = true := by simpa using hup
  have hm : ':' ∈ proxyAddr.data := by simpa using hfmt
  constructor <;> simp [CheckSOCKS4, CheckSOCKS5, hfmt, hm, h2]

/-- Closed witness for C7 (amended) at a well-formed candidate address
and a non-empty upstream. -/
theorem C7_witness :
    CheckSOCKS4 netRefuse "9.9.9.9:1080" "http://api.ipify.org" "1.2.3.4:1080" .http =
      .error "upstream proxy not supported for SOCKS4 checks" ∧
    CheckSOCKS5 netRefuse "9.9.9.9:1080" "http://api.ipify.org" "1.2.3.4:1080" .http =
      .error "upstream proxy not supported for SOCKS5 checks" :=
  C7_socks_upstream_rejected netRefuse "9.9.9.9:1080" "http://api.ipify.org"
    "1.2.3.4:1080" .http (by decide) (by decide)

theorem counts_of_all_dead (rs : List ProxyResult) (h : ∀ r ∈ rs, r.Status = "DEAD") :
    countLive rs = 0 ∧ countDead rs = rs.length ∧ countOther rs = 0 := by
  induction rs with
  | nil => simp [countLive, countDead, countOther]
  | cons r rest ih =>
    have hr : r.Status = "DEAD" := h r (by simp)
    obtain ⟨h1, h2, h3⟩ := ih (fun x hx => h x (by simp [hx]))
    have hrl : ¬ ((r.Status == "LIVE") = true) := by simp [hr]
    have hrd : (r.Status == "DEAD") = true := by simp [hr]
    have hro : ¬ ((!(r.Status == "LIVE") && !(r.Status == "DEAD")) = true) := by simp [hr]
    simp only [countLive, countDead, countOther, List.filter_cons] at h1 h2 h3 ⊢
    rw [if_neg hrl, if_pos hrd, if_neg hro]
    simp only [List.length_cons]
    omega

/-- Claim C6: a probe error makes the worker record a terminal DEAD
result carrying the error text and continue to the remaining endpoints
(a malformed address lacking a port separator fails with the
invalid-format error); consequently a run in which every probe fails
ends with Live = 0, Dead = total, Errors = 0 and success rate 0. -/
theorem C6_failed_probes_recorded_dead :
    (∀ (net : NetBehavior) (quick : String → ProxyType → Bool) (req : ProxyCheckRequest)
       (lat : String → Int) (proxy e : String),
      dispatchCheck net (resolveEffectiveType req.proxyType (quick proxy)) proxy
          req.endpoint req.upstreamProxy req.upstreamType = .error e →
      (checkOne net quick req lat proxy).Status = "DEAD" ∧
      (checkOne net quick req lat proxy).Error = e) ∧
    (∀ (net : NetBehavior) (endpoint up : String) (ut : ProxyType) (addr : String),
      addr.data.contains ':' = false →
      CheckHTTP net addr endpoint up ut = .error "invalid proxy format") ∧
    (∀ (net : NetBehavior) (quick : String → ProxyType → Bool) (req : ProxyCheckRequest)
       (lat : String → Int),
      (∀ p ∈ req.proxyList, ∃ e,
        dispatchCheck net (resolveEffectiveType req.proxyType (quick p)) p
          req.endpoint req.upstreamProxy req.upstreamType = .error e) →
      ((req.proxyList.map (checkOne net quick req lat)).foldl recordResult
          (startRunState req.proxyList.length req.threads)).results.length =
        req.proxyList.length ∧
      (GetStatsCopy ((req.proxyList.map (checkOne net quick req lat)).foldl recordResult
          (startRunState req.proxyList.length req.threads)).stats).Live = 0 ∧
      (GetStatsCopy ((req.proxyList.map (checkOne net quick req lat)).foldl recordResult
          (startRunState req.proxyList.length req.threads)).stats).Dead =
        (req.proxyList.length : Int) ∧
      (GetStatsCopy ((req.proxyList.map (checkOne net quick req lat)).foldl recordResult
          (startRunState req.proxyList.length req.threads)).stats).Errors = 0 ∧
      (GetStatsCopy ((req.proxyList.map (checkOne net quick req lat)).foldl recordResult
          (startRunState req.proxyList.length req.threads)).stats).SuccessRate = 0) := by
  have hone : ∀ (net : NetBehavior) (quick : String → ProxyType → Bool)
      (req : ProxyCheckRequest) (lat : String → Int) (proxy e : String),
      dispatchCheck net (resolveEffectiveType req.proxyType (quick proxy)) proxy
          req.endpoint req.upstreamProxy req.upstreamType = .error e →
      (checkOne net quick req lat proxy).Status = "DEAD" ∧
      (checkOne net quick req lat proxy).Error = e := by
    intro net quick req lat proxy e h
    constructor <;> simp [checkOne, h]
  refine ⟨hone, ?_, ?_⟩
  · intro net endpoint up ut addr h
    have hm : ¬ (':' ∈ addr.data) := by simpa using h
    simp [CheckHTTP, h, hm]
  · intro net quick req lat hall
    have hdead : ∀ r ∈ req.proxyList.map (checkOne net quick req lat), r.Status = "DEAD" := by
      intro r hr
      rw [List.mem_map] at hr
      obtain ⟨p, hp, rfl⟩ := hr
      obtain ⟨e, he⟩ := hall p hp
      exact (hone net quick req lat p e he).1
    obtain ⟨hres, htot, hpend, hthr, hchk, hsr, hlive, hdead2, herr, htc, hlat, hcnt, havg⟩ :=
      run_runInv (req.proxyList.length : Int) req.threads
        (req.proxyList.map (checkOne net quick req lat))
    obtain ⟨c1, c2, c3⟩ := counts_of_all_dead _ hdead
    refine ⟨?_, ?_, ?_, ?_, ?_⟩
    · rw [hres, List.length_map]
    · simp [GetStatsCopy, Stats.empty, hlive, c1]
    · simp [GetStatsCopy, Stats.empty, hdead2, c2]
    · simp [GetStatsCopy, Stats.empty, herr, c3]
    · simp [GetStatsCopy, Stats.empty]

/-- A concrete run request on which every probe fails: one malformed
endpoint and one endpoint the network refuses. -/
def reqAllFail : ProxyCheckRequest :=
  { proxyList := ["not-an-address", "10.0.0.1:8080"], proxyType := .http,
    endpoint := "http://api.ipify.org", threads := 2, upstreamProxy := "",
    upstreamType := .auto }

/-- Closed witness for C6: the all-fail run over the two endpoints of
reqAllFail ends with Dead = 2. -/
theorem C6_witness :
    (GetStatsCopy ((reqAllFail.proxyList.map
        (checkOne netRefuse (fun _ _ => false) reqAllFail (fun _ => 30))).foldl recordResult
        (startRunState reqAllFail.proxyList.length reqAllFail.threads)).stats).Dead = 2 :=
  (C6_failed_probes_recorded_dead.2.2 netRefuse (fun _ _ => false) reqAllFail (fun _ => 30)
    (by
      intro p hp
      simp only [reqAllFail, List.mem_cons, List.not_mem_nil, or_false] at hp
      rcases hp with rfl | rfl
      · exact ⟨"invalid proxy format", rfl⟩
      · exact ⟨"proxy connection failed: connection refused", rfl⟩)).2.2.1

/-- Claim C8: ClearResults has no effect when the Manager is running and
not paused; in every other state it empties the result collection and
resets the statistics, so that afterwards GetResults is empty and
GetStats reports Total = 0. -/
theorem C8_clearResults (m : Manager) :
    (m.running = true → m.paused = false → m.ClearResults = m) ∧
    (¬ (m.running = true ∧ m.paused = false) →
      m.ClearResults.GetResults = [] ∧ m.ClearResults.GetStats.Total = 0 ∧
      m.ClearResults.results = [] ∧ m.ClearResults.working = [] ∧
      m.ClearResults.stats = Stats.empty) := by
  constructor
  · intro h1 h2
    simp [Manager.ClearResults, h1, h2]
  · intro h
    have hb : (m.running && !m.paused) = false := by
      rcases Bool.eq_false_or_eq_true m.running with hr | hr
      · rcases Bool.eq_false_or_eq_true m.paused with hp | hp
        · simp [hp]
        · exact absurd ⟨hr, hp⟩ h
      · simp [hr]
    simp [Manager.ClearResults, hb, Manager.GetResults, Manager.GetStats, GetStatsCopy,
      Stats.empty]

/-- A Manager mid-run: two workers running, none paused, five proxies
loaded, one result already recorded. -/
def mRun2 : Manager :=
  { running := true, paused := false, results := [liveResultEx], working := ["1.2.3.4:80"],
    stats := { Stats.empty with Total := 5, Pending := 5, ThreadCount := 2, Live := 1 },
    workerCount := 2, pausedWorkerCount := 0,
    stopChanClosed := false, pauseChanClosed := false, resumeChanClosed := false }

/-- The same Manager after its pause flag is set. -/
def mPausedRun : Manager := { mRun2 with paused := true }

/-- Closed witness for C8: ClearResults is a no-op on the running
unpaused Manager and wipes the paused one. -/
theorem C8_witness :
    mRun2.ClearResults = mRun2 ∧
    (mPausedRun.ClearResults.GetResults = [] ∧ mPausedRun.ClearResults.GetStats.Total = 0 ∧
     mPausedRun.ClearResults.results = [] ∧ mPausedRun.ClearResults.working = [] ∧
     mPausedRun.ClearResults.stats = Stats.empty) :=
  ⟨(C8_clearResults mRun2).1 rfl rfl,
   (C8_clearResults mPausedRun).2 (by simp [mPausedRun, mRun2])⟩

theorem workerLoop_length_le (net : NetBehavior) (quick : String → ProxyType → Bool)
    (req : ProxyCheckRequest) (lat : String → Int) (sig : Nat → BoundarySignal) :
    ∀ (jobs : List String) (i : Nat),
      (workerLoop net quick req lat sig jobs i).length ≤ jobs.length := by
  intro jobs
  induction jobs with
  | nil =>
    intro i
    simp [workerLoop]
  | cons p rest ih =>
    intro i
    cases h : sig i with
    | stopSig => simp [workerLoop, h]
    | pauseStop => simp [workerLoop, h]
    | pauseResume =>
      have h2 := ih (i + 1)
      simp only [workerLoop, h, List.length_cons]
      omega
    | noSignal =>
      have h2 := ih (i + 1)
      simp only [workerLoop, h, List.length_cons]
      omega

/-- Claim C9: a worker that observes a pause signal followed by a resume,
or a stop signal, at a job boundary discards the endpoint it dequeued
for that iteration: no probe runs for it and no result is appended for
it, for every possible network behaviour; hence a run that undergoes a
pause/resume cycle can complete with fewer appended results than the
number of jobs. -/
theorem C9_boundary_signal_discards_job :
    (∀ (net : NetBehavior) (quick : String → ProxyType → Bool) (req : ProxyCheckRequest)
       (lat : String → Int) (sig : Nat → BoundarySignal) (p : String) (rest : List String)
       (i : Nat), sig i = BoundarySignal.pauseResume →
      workerLoop net quick req lat sig (p :: rest) i =
        workerLoop net quick req lat sig rest (i + 1)) ∧
    (∀ (net : NetBehavior) (quick : String → ProxyType → Bool) (req : ProxyCheckRequest)
       (lat : String → Int) (sig : Nat → BoundarySignal) (p : String) (rest : List String)
       (i : Nat), sig i = BoundarySignal.stopSig →
      workerLoop net quick req lat sig (p :: rest) i = []) ∧
    (∀ (net : NetBehavior) (quick : String → ProxyType → Bool) (req : ProxyCheckRequest)
       (lat : String → Int) (sig : Nat → BoundarySignal) (p : String) (rest : List String)
       (i : Nat), sig i = BoundarySignal.pauseStop →
      workerLoop net quick req lat sig (p :: rest) i = []) ∧
    (∀ (net : NetBehavior) (quick : String → ProxyType → Bool) (req : ProxyCheckRequest)
       (lat : String → Int) (sig : Nat → BoundarySignal) (p : String) (rest : List String)
       (i : Nat), sig i = BoundarySignal.pauseResume →
      (workerLoop net quick req lat sig (p :: rest) i).length < (p :: rest).length) := by
  refine ⟨?_, ?_, ?_, ?_⟩
  · intro net quick req lat sig p rest i h
    simp [workerLoop, h]
  · intro net quick req lat sig p rest i h
    simp [workerLoop, h]
  · intro net quick req lat sig p rest i h
    simp [workerLoop, h]
  · intro net quick req lat sig p rest i h
    have h2 := workerLoop_length_le net quick req lat sig rest (i + 1)
    simp only [workerLoop, h, List.length_cons]
    omega

/-- A signal schedule with a pause/resume cycle at the first job
boundary and no signal afterwards. -/
def sigPauseFirst : Nat → BoundarySignal :=
  fun n => if n = 0 then .pauseResume else .noSignal

/-- Closed witness for C9: with a pause/resume observed at the first
boundary, a two-job worker appends fewer than two results. -/
theorem C9_witness :
    sigPauseFirst 0 = BoundarySignal.pauseResume ∧
    (workerLoop netRefuse (fun _ _ => false) reqAllFail (fun _ => 30) sigPauseFirst
      ["not-an-address", "10.0.0.1:8080"] 0).length < 2 :=
  ⟨rfl, C9_boundary_signal_discards_job.2.2.2 netRefuse (fun _ _ => false) reqAllFail
    (fun _ => 30) sigPauseFirst "not-an-address" ["10.0.0.1:8080"] 0 rfl⟩

/-- Claim C3, evaluated at the failing input: Pause succeeds on the
running two-worker Manager and both workers then observe the pause
signal at their job boundary, yet GetPausedWorkerCount stays 0 and so
never equals GetWorkerCount = 2.  The worker pause branch performs no
counter update and no code path in the repository ever calls
IncrementPausedWorkerCount, so the count cannot grow during the Pause
path; the pause poller in the application layer therefore always runs
into its timeout. -/
theorem C3_paused_count_never_reaches_total :
    mRun2.Pause.1 = true ∧
    (observeAll mRun2.Pause.2 [] [0, 1]).1.GetPausedWorkerCount = 0 ∧
    (observeAll mRun2.Pause.2 [] [0, 1]).1.GetWorkerCount = 2 ∧
    (observeAll mRun2.Pause.2 [] [0, 1]).1.GetPausedWorkerCount ≠
      (observeAll mRun2.Pause.2 [] [0, 1]).1.GetWorkerCount := by
  refine ⟨rfl, rfl, rfl, by decide⟩

/-- Claim C4, evaluated at the failing input: with the two-worker
Manager running and 3 worker tasks still active, Stop(graceful) clears
the running flag synchronously: IsRunning reports false immediately
after Stop returns, although no worker has exited and the completion
watcher step is still a no-op.  This contradicts the claim (and the
comment at manager.go line 314) that the flag becomes false only when
the completion watcher has observed all workers exited. -/
theorem C4_running_cleared_before_workers_exit :
    mRun2.IsRunning = true ∧
    (Manager.Stop mRun2 false).IsRunning = false ∧
    ({ mgr := Manager.Stop mRun2 false, activeWorkers := 3 } : SystemState).activeWorkers ≠ 0 ∧
    completionWatcherStep { mgr := Manager.Stop mRun2 false, activeWorkers := 3 } =
      { mgr := Manager.Stop mRun2 false, activeWorkers := 3 } := by
  refine ⟨rfl, rfl, by decide, rfl⟩

/-- The latencies that UpdateWithResult actually folds into the speed
statistics: those of live results with strictly positive latency
(stats.go lines 114-119). -/
def countedLats (rs : List ProxyResult) : List Int :=
  (rs.filter fun r => r.Status == StatusLive && decide (0 < r.Latency)).map
    ProxyResult.Latency

theorem countedLats_append (rs : List ProxyResult) (r : ProxyResult) :
    countedLats (rs ++ [r]) =
      countedLats rs ++
        (if r.Status == StatusLive && decide (0 < r.Latency) then [r.Latency] else []) := by
  simp only [countedLats, List.filter_append, List.map_append, List.filter_cons,
    List.filter_nil]
  split <;> simp

/-- The invariant linking a StatsTracker state to the results folded so
far: the accumulators hold the sum and the number of counted latencies,
and AverageSpeed is their truncating quotient (0 while none counted). -/
def trackInv (rs : List ProxyResult) (st : StatsTracker) : Prop :=
  st.totalTime = (countedLats rs).sum ∧
  st.totalCount = ((countedLats rs).length : Int) ∧
  st.stats.AverageSpeed =
    (if (countedLats rs).length = 0 then 0
     else (countedLats rs).sum.tdiv ((countedLats rs).length : Int))

theorem update_trackInv (rs : List ProxyResult) (st : StatsTracker) (r : ProxyResult)
    (h : trackInv rs st) : trackInv (rs ++ [r]) (st.UpdateWithResult r) := by
  obtain ⟨h1, h2, h3⟩ := h
  cases hS : r.Status == StatusLive
  · have hc : (r.Status == StatusLive && decide (0 < r.Latency)) = false := by simp [hS]
    refine ⟨?_, ?_, ?_⟩ <;>
      simp [StatsTracker.UpdateWithResult, hS, h1, h2, h3, countedLats_append, hc,
        apply_ite StatsTracker.totalTime, apply_ite StatsTracker.totalCount,
        apply_ite StatsTracker.stats, apply_ite Stats.AverageSpeed]
  · by_cases hL : 0 < r.Latency
    · have hc : (r.Status == StatusLive && decide (0 < r.Latency)) = true := by
        simp [hS, hL]
      have hne : ¬ (countedLats rs).length + 1 = 0 := by omega
      refine ⟨?_, ?_, ?_⟩ <;>
        simp [StatsTracker.UpdateWithResult, hS, hL, h1, h2, h3, countedLats_append, hc,
          hne, apply_ite StatsTracker.totalTime, apply_ite StatsTracker.totalCount,
          apply_ite StatsTracker.stats, apply_ite Stats.AverageSpeed] <;>
        push_cast <;> ring_nf
    · have hc : (r.Status == StatusLive && decide (0 < r.Latency)) = false := by
        simp [hL]
      refine ⟨?_, ?_, ?_⟩ <;>
        simp [StatsTracker.UpdateWithResult, hS, hL, h1, h2, h3, countedLats_append, hc,
          apply_ite StatsTracker.totalTime, apply_ite StatsTracker.totalCount,
          apply_ite StatsTracker.stats, apply_ite Stats.AverageSpeed]

theorem foldl_update_trackInv (rs : List ProxyResult) :
    ∀ (rs0 : List ProxyResult) (st : StatsTracker), trackInv rs0 st →
      trackInv (rs0 ++ rs) (rs.foldl StatsTracker.UpdateWithResult st) := by
  induction rs with
  | nil =>
    intro rs0 st h
    simpa using h
  | cons r rest ih =>
    intro rs0 st h
    have h2 := ih (rs0 ++ [r]) (st.UpdateWithResult r) (update_trackInv rs0 st r h)
    simpa [List.append_assoc] using h2

theorem reset_trackInv (st : StatsTracker) (n : Int) : trackInv [] (st.Reset n) := by
  refine ⟨rfl, rfl, ?_⟩
  simp [StatsTracker.Reset, Stats.empty, countedLats]

/-- Claim C10: in UpdateWithResult a live result contributes to
AverageSpeed only when its latency is strictly positive: a live result
with latency at most 0 increments Live and leaves AverageSpeed
unchanged; and after any sequence of updates following a Reset,
AverageSpeed equals the truncating integer division of the sum of the
counted latencies by the number of counted live results (0 while none
have been counted). -/
theorem C10_average_speed :
    (∀ (st : StatsTracker) (r : ProxyResult), r.Status = StatusLive → r.Latency ≤ 0 →
      (st.UpdateWithResult r).stats.Live = st.stats.Live + 1 ∧
      (st.UpdateWithResult r).stats.AverageSpeed = st.stats.AverageSpeed ∧
      (st.UpdateWithResult r).totalTime = st.totalTime ∧
      (st.UpdateWithResult r).totalCount = st.totalCount) ∧
    (∀ (st0 : StatsTracker) (n : Int) (rs : List ProxyResult),
      (rs.foldl StatsTracker.UpdateWithResult (st0.Reset n)).stats.AverageSpeed =
        (if (countedLats rs).length = 0 then 0
         else (countedLats rs).sum.tdiv ((countedLats rs).length : Int))) := by
  constructor
  · intro st r hr hL
    have hS : (r.Status == StatusLive) = true := by simp [hr]
    have hL2 : ¬ 0 < r.Latency := by omega
    refine ⟨?_, ?_, ?_, ?_⟩ <;>
      simp [StatsTracker.UpdateWithResult, hS, hL2,
        apply_ite StatsTracker.totalTime, apply_ite StatsTracker.totalCount,
        apply_ite StatsTracker.stats, apply_ite Stats.AverageSpeed, apply_ite Stats.Live]
  · intro st0 n rs
    have h := foldl_update_trackInv rs [] (st0.Reset n) (reset_trackInv st0 n)
    simpa using h.2.2

/-- A live result with latency 40, counted by the speed statistics. -/
def liveLat40 : ProxyResult :=
  { Proxy := "a:1", type := some .http, Status := "live", Latency := 40,
    OutgoingIP := "", Error := "" }

/-- A live result with latency 0, not counted by the speed statistics. -/
def liveLat0 : ProxyResult :=
  { Proxy := "b:2", type := some .http, Status := "live", Latency := 0,
    OutgoingIP := "", Error := "" }

/-- Closed witness for C10: folding a live result of latency 0 after a
live result of latency 40 leaves AverageSpeed at 40, and the fold over
the two results matches the truncating mean of the counted latencies. -/
theorem C10_witness :
    ((((⟨Stats.empty, 0, 0⟩ : StatsTracker).Reset 2).UpdateWithResult
        liveLat40).UpdateWithResult liveLat0).stats.AverageSpeed = 40 ∧
    ([liveLat40, liveLat0].foldl StatsTracker.UpdateWithResult
        ((⟨Stats.empty, 0, 0⟩ : StatsTracker).Reset 2)).stats.AverageSpeed =
      (if (countedLats [liveLat40, liveLat0]).length = 0 then 0
       else (countedLats [liveLat40, liveLat0]).sum.tdiv
         ((countedLats [liveLat40, liveLat0]).length : Int)) := by
  constructor
  · exact ((C10_average_speed.1 _ liveLat0 rfl (by decide)).2.1).trans (by decide)
  · exact C10_average_speed.2 (⟨Stats.empty, 0, 0⟩ : StatsTracker) 2 [liveLat40, liveLat0]
